import Mathlib

/-!
Shallow embedding of `MicroPython_BUILD/components/micropython/esp32/machine_i2s.c`
(MicroPython ESP32 LoBo port, I2S bindings).

The module is a thin binding layer: a two-entry claim registry for the two
physical I2S units, an argument validator, a configuration translator that
calls the vendor driver (`i2s_driver_install`, `i2s_set_pin`), and the
`init` / `deinit` / `readinto` methods.  Vendor-driver and runtime
collaborators are opaque: their status codes and outputs are supplied by an
explicit environment, and the calls the binding issues to them are recorded
in a trace, so control-flow facts (which collaborator calls happen, in which
order) are provable.
-/

namespace MachineI2S

/-! ### Constants from the vendor headers (driver/i2s.h, esp_err.h)

Numeric values as in the ESP-IDF release this port builds against.  Only
their distinctness matters for the properties below. -/

def I2S_NUM_0 : Int := 0
def I2S_NUM_1 : Int := 1
def I2S_MODE_MASTER : Int := 1
def I2S_MODE_RX : Int := 8
/-- `I2S_MODE_MASTER | I2S_MODE_RX`; bitwise or of two disjoint flag bits,
hence equal to their sum. -/
def MODE_MASTER_RX : Int := I2S_MODE_MASTER + I2S_MODE_RX
def I2S_BITS_PER_SAMPLE_8BIT : Int := 8
def I2S_BITS_PER_SAMPLE_16BIT : Int := 16
def I2S_BITS_PER_SAMPLE_24BIT : Int := 24
def I2S_BITS_PER_SAMPLE_32BIT : Int := 32
def I2S_CHANNEL_FMT_RIGHT_LEFT : Int := 0
def I2S_CHANNEL_FMT_ALL_RIGHT : Int := 1
def I2S_CHANNEL_FMT_ALL_LEFT : Int := 2
def I2S_CHANNEL_FMT_ONLY_RIGHT : Int := 3
def I2S_CHANNEL_FMT_ONLY_LEFT : Int := 4
def I2S_COMM_FORMAT_I2S : Int := 1
def I2S_COMM_FORMAT_I2S_MSB : Int := 2
def I2S_COMM_FORMAT_I2S_LSB : Int := 4
/-- `I2S_COMM_FORMAT_I2S | I2S_COMM_FORMAT_I2S_MSB` (disjoint bits). -/
def COMM_I2S_MSB : Int := I2S_COMM_FORMAT_I2S + I2S_COMM_FORMAT_I2S_MSB
/-- `I2S_COMM_FORMAT_I2S | I2S_COMM_FORMAT_I2S_LSB` (disjoint bits). -/
def COMM_I2S_LSB : Int := I2S_COMM_FORMAT_I2S + I2S_COMM_FORMAT_I2S_LSB
def ESP_FAIL : Int := -1
def ESP_ERR_NO_MEM : Int := 257
def ESP_ERR_INVALID_ARG : Int := 258

/-- Two's-complement narrowing to `int16_t`, as performed by the C
assignments `int16_t i2s_dmacount = args[ARG_dmacount].u_int;` and
`int16_t i2s_dmalen = args[ARG_dmalen].u_int;` (the target compiler, gcc,
wraps on signed narrowing). -/
def int16_of (x : Int) : Int := (x + 32768) % 65536 - 32768

/-! ### Claim registry (lines 33-70 of the source) -/

/-- `machine_i2s_port_state_t`. -/
inductive machine_i2s_port_state_t
  | NOT_USED
  | USED
deriving DecidableEq

/-- The process-wide array `machine_i2s_port_state[I2S_NUM_MAX]`
(`I2S_NUM_MAX = 2`). -/
structure Registry where
  port0 : machine_i2s_port_state_t
  port1 : machine_i2s_port_state_t
deriving DecidableEq

def Registry.get (st : Registry) (p : Fin 2) : machine_i2s_port_state_t :=
  if p = 0 then st.port0 else st.port1

def Registry.set (st : Registry) (p : Fin 2) (v : machine_i2s_port_state_t) : Registry :=
  if p = 0 then ⟨v, st.port1⟩ else ⟨st.port0, v⟩

/-- Both entries `MACHINE_I2S_PORT_NOT_USED`, the initializer of the array. -/
def initialRegistry : Registry := ⟨.NOT_USED, .NOT_USED⟩

/-- `machine_i2s_acquire_port`: checks and flips NOT_USED to USED, returning
whether the port was acquired, together with the updated registry. -/
def machine_i2s_acquire_port (st : Registry) (port : Fin 2) : Bool × Registry :=
  if st.get port = .NOT_USED then (true, st.set port .USED)
  else (false, st)

/-- `machine_i2s_release_port`: unconditionally sets the entry to NOT_USED. -/
def machine_i2s_release_port (st : Registry) (port : Fin 2) : Registry :=
  st.set port .NOT_USED

/-! ### Errors, arguments, the instance struct, and collaborator calls -/

/-- The two error classes the binding raises (`mp_raise_ValueError`,
`mp_raise_msg(&mp_type_OSError, ...)`). -/
inductive MpError
  | valueError (msg : String)
  | osError (msg : String)
deriving DecidableEq

/-- The argument record produced by `mp_arg_parse_all` for
`machine_i2s_init_helper`.  Integer options are `mp_int_t` values; the pin
options hold the outcome of looking at the passed object (`none` models a
pin object the pin-resolution collaborator rejects). -/
structure Args where
  id : Int
  mode : Int
  samplerate : Int
  bits : Int
  channelformat : Int
  commformat : Int
  dmacount : Int
  dmalen : Int
  useapll : Bool
  fixedmclk : Int
  sck : Option Int
  ws : Option Int
  sdout : Option Int
  sdin : Option Int
deriving DecidableEq

/-- Modelled from the spec: `machine_pin_get_gpio` (pin-reference resolver,
a host-runtime collaborator whose source is not part of this module) maps a
pin reference to a GPIO number and, per spec sections 4.2 and 7, a
resolution failure propagates as a ValueError-class (bad argument) error. -/
def machine_pin_get_gpio : Option Int → Except MpError Int
  | none => .error (.valueError "invalid pin")
  | some g => .ok g

/-- `machine_i2s_obj_t` (the fields `machine_i2s_init_helper` assigns; the
`sdout` field is never written by the source and is omitted).  `id` is a
`Fin 2` because the source validates the id against `{I2S_NUM_0, I2S_NUM_1}`
before storing it. -/
structure machine_i2s_obj_t where
  id : Fin 2
  mode : Int
  samplerate : Int
  bits : Int
  channelformat : Int
  commformat : Int
  dmacount : Int
  dmalen : Int
  useapll : Bool
  fixedmclk : Int
  sck : Int
  ws : Int
  sdin : Int
deriving DecidableEq

/-- One call issued to a vendor-driver collaborator, with the arguments the
binding passes and the status code / output the collaborator returns. -/
inductive DriverCall
  | driverInstall (port : Fin 2) (ret : Int)
  | setPin (port : Fin 2) (ret : Int)
  | driverUninstall (port : Fin 2)
  | i2sRead (port : Fin 2) (len : Nat) (ret : Int) (bytesRead : Nat)
deriving DecidableEq

/-- Environment supplying the status codes the two configuration-stage
collaborators return on this call. -/
structure DriverEnv where
  installRet : Int
  setPinRet : Int
deriving DecidableEq

instance exceptDecEq {ε α : Type} [DecidableEq ε] [DecidableEq α] :
    DecidableEq (Except ε α) := fun x y =>
  match x, y with
  | .ok a, .ok b =>
    if h : a = b then .isTrue (congrArg Except.ok h)
    else .isFalse (fun c => h (Except.ok.inj c))
  | .error a, .error b =>
    if h : a = b then .isTrue (congrArg Except.error h)
    else .isFalse (fun c => h (Except.error.inj c))
  | .ok _, .error _ => .isFalse Except.noConfusion
  | .error _, .ok _ => .isFalse Except.noConfusion

/-- Result of one binding entry point: the outcome (the raised error, or the
returned value), the claim registry afterwards, the collaborator calls
issued (in order), and the instance-struct fields as last written by this
call (`none` when the call raised before reaching the field assignments of
lines 178-191). -/
structure CallResult (α : Type) where
  outcome : Except MpError α
  registry : Registry
  calls : List DriverCall
  written : Option machine_i2s_obj_t
deriving DecidableEq

/-- The port index the helper derives from a validated `id` argument
(the local `i2s_port_t i2s_id`): 0 for `I2S_NUM_0`, else 1. -/
def argPort (a : Args) : Fin 2 := if a.id = I2S_NUM_0 then 0 else 1

/-- Lines 193-229 of `machine_i2s_init_helper`: translate the validated
configuration into the two driver structs and call `i2s_driver_install`
then `i2s_set_pin`.  `mp_raise_msg` does not return, so a status code that
hits a `case` of either `switch` stops the function there; any other status
code falls through as success. -/
def machine_i2s_configure (env : DriverEnv) (self : machine_i2s_obj_t)
    (st : Registry) : CallResult machine_i2s_obj_t :=
  let calls1 := [DriverCall.driverInstall self.id env.installRet]
  if env.installRet = ESP_ERR_INVALID_ARG then
    ⟨.error (.osError "I2S driver install:  Parameter error"), st, calls1, some self⟩
  else if env.installRet = ESP_ERR_NO_MEM then
    ⟨.error (.osError "I2S driver install:  Out of memory"), st, calls1, some self⟩
  else
    let calls2 := calls1 ++ [DriverCall.setPin self.id env.setPinRet]
    if env.setPinRet = ESP_ERR_INVALID_ARG then
      ⟨.error (.osError "I2S set pin:  Parameter error"), st, calls2, some self⟩
    else if env.setPinRet = ESP_FAIL then
      ⟨.error (.osError "I2S set pin:  IO error"), st, calls2, some self⟩
    else
      ⟨.ok self, st, calls2, some self⟩

/-- `machine_i2s_init_helper` (lines 72-230): validation in source order,
then pin resolution, then the port-claim attempt, then field assignment and
configuration.  On success the outcome carries the assigned instance
struct. -/
def machine_i2s_init_helper (env : DriverEnv) (a : Args) (st : Registry) :
    CallResult machine_i2s_obj_t :=
  if a.id ≠ I2S_NUM_0 ∧ a.id ≠ I2S_NUM_1 then
    ⟨.error (.valueError "I2S ID is not valid"), st, [], none⟩
  else if a.mode ≠ MODE_MASTER_RX then
    ⟨.error (.valueError "Only Master Rx Mode is supported"), st, [], none⟩
  else if a.bits ≠ I2S_BITS_PER_SAMPLE_8BIT ∧ a.bits ≠ I2S_BITS_PER_SAMPLE_16BIT ∧
      a.bits ≠ I2S_BITS_PER_SAMPLE_24BIT ∧ a.bits ≠ I2S_BITS_PER_SAMPLE_32BIT then
    ⟨.error (.valueError "Bits per sample is not valid"), st, [], none⟩
  else if a.channelformat ≠ I2S_CHANNEL_FMT_RIGHT_LEFT ∧
      a.channelformat ≠ I2S_CHANNEL_FMT_ALL_RIGHT ∧
      a.channelformat ≠ I2S_CHANNEL_FMT_ALL_LEFT ∧
      a.channelformat ≠ I2S_CHANNEL_FMT_ONLY_RIGHT ∧
      a.channelformat ≠ I2S_CHANNEL_FMT_ONLY_LEFT then
    ⟨.error (.valueError "Channel Format is not valid"), st, [], none⟩
  else if a.commformat ≠ COMM_I2S_MSB ∧ a.commformat ≠ COMM_I2S_LSB then
    ⟨.error (.valueError "Communication Format is not valid"), st, [], none⟩
  else if int16_of a.dmacount < 2 ∨ int16_of a.dmacount > 128 then
    ⟨.error (.valueError "DMA Buffer Count is not valid.  Allowed range is [2, 128]"), st, [], none⟩
  else if int16_of a.dmalen < 8 ∨ int16_of a.dmalen > 1024 then
    ⟨.error (.valueError "DMA Buffer Length is not valid.  Allowed range is [8, 1024]"), st, [], none⟩
  else
    match machine_pin_get_gpio a.sck, machine_pin_get_gpio a.ws,
        machine_pin_get_gpio a.sdin with
    | .error e, _, _ => ⟨.error e, st, [], none⟩
    | .ok _, .error e, _ => ⟨.error e, st, [], none⟩
    | .ok _, .ok _, .error e => ⟨.error e, st, [], none⟩
    | .ok sck, .ok ws, .ok sdin =>
      match machine_i2s_acquire_port st (argPort a) with
      | (false, st1) =>
        ⟨.error (.valueError "I2S id is already in use"), st1, [], none⟩
      | (true, st1) =>
        machine_i2s_configure env
          ⟨argPort a, a.mode, a.samplerate, a.bits, a.channelformat, a.commformat,
            int16_of a.dmacount, int16_of a.dmalen, a.useapll, a.fixedmclk,
            sck, ws, sdin⟩ st1

/-- `machine_i2s_make_new` (lines 248-257): allocates a fresh instance and
runs the shared helper on it. -/
def machine_i2s_make_new (env : DriverEnv) (a : Args) (st : Registry) :
    CallResult machine_i2s_obj_t :=
  machine_i2s_init_helper env a st

/-- `machine_i2s_init` (lines 259-268): releases the port stored in the
instance and uninstalls the driver, unconditionally, then re-runs the
helper with the new arguments. -/
def machine_i2s_init (env : DriverEnv) (self : machine_i2s_obj_t) (a : Args)
    (st : Registry) : CallResult machine_i2s_obj_t :=
  let st1 := machine_i2s_release_port st self.id
  let r := machine_i2s_init_helper env a st1
  ⟨r.outcome, r.registry, DriverCall.driverUninstall self.id :: r.calls, r.written⟩

/-- `machine_i2s_deinit` (lines 306-313): releases the stored port and
uninstalls the driver; raises nothing. -/
def machine_i2s_deinit (self : machine_i2s_obj_t) (st : Registry) :
    CallResult Unit :=
  ⟨.ok (), machine_i2s_release_port st self.id, [DriverCall.driverUninstall self.id], none⟩

/-- Environment for one `i2s_read` collaborator call: its status code and
the byte count it writes through `num_bytes_read`. -/
structure ReadEnv where
  readRet : Int
  bytesRead : Nat
deriving DecidableEq

/-- The parsed arguments of `machine_i2s_readinto`: the capacity of the
writable buffer obtained by `mp_get_buffer_raise`, and the `timeout`
keyword (default -1, meaning wait indefinitely). -/
structure ReadArgs where
  bufLen : Nat
  timeout : Int
deriving DecidableEq

/-- Result of `machine_i2s_readinto`: the returned byte count or raised
error, and the collaborator calls issued. -/
structure ReadResult where
  outcome : Except MpError Nat
  calls : List DriverCall
deriving DecidableEq

/-- `machine_i2s_readinto` (lines 271-304): rejects unless the stored mode
is Master/Rx, then performs one blocking `i2s_read` and returns the byte
count written by the collaborator; only `ESP_ERR_INVALID_ARG` from the
collaborator is mapped to an error. -/
def machine_i2s_readinto (env : ReadEnv) (self : machine_i2s_obj_t)
    (a : ReadArgs) : ReadResult :=
  if self.mode ≠ MODE_MASTER_RX then
    ⟨.error (.valueError "Communication Mode must be Master/Rx"), []⟩
  else
    let calls := [DriverCall.i2sRead self.id a.bufLen env.readRet env.bytesRead]
    if env.readRet = ESP_ERR_INVALID_ARG then
      ⟨.error (.osError "I2S read:  Parameter error"), calls⟩
    else
      ⟨.ok env.bytesRead, calls⟩

/-! ### The spec-side validation-order function

Used to settle the validation-order claim: this function is written to the
spec's fixed order (id, mode, bits, channel format, comm format, dma count,
dma length, pin resolution), producing the first failing check's error, with
the code's `int16_t` narrowing of the two DMA parameters. -/

/-- First validation error in the spec's fixed order, `none` when every
argument check passes. -/
def validationFirstError (a : Args) : Option MpError :=
  if a.id ≠ I2S_NUM_0 ∧ a.id ≠ I2S_NUM_1 then
    some (.valueError "I2S ID is not valid")
  else if a.mode ≠ MODE_MASTER_RX then
    some (.valueError "Only Master Rx Mode is supported")
  else if a.bits ≠ I2S_BITS_PER_SAMPLE_8BIT ∧ a.bits ≠ I2S_BITS_PER_SAMPLE_16BIT ∧
      a.bits ≠ I2S_BITS_PER_SAMPLE_24BIT ∧ a.bits ≠ I2S_BITS_PER_SAMPLE_32BIT then
    some (.valueError "Bits per sample is not valid")
  else if a.channelformat ≠ I2S_CHANNEL_FMT_RIGHT_LEFT ∧
      a.channelformat ≠ I2S_CHANNEL_FMT_ALL_RIGHT ∧
      a.channelformat ≠ I2S_CHANNEL_FMT_ALL_LEFT ∧
      a.channelformat ≠ I2S_CHANNEL_FMT_ONLY_RIGHT ∧
      a.channelformat ≠ I2S_CHANNEL_FMT_ONLY_LEFT then
    some (.valueError "Channel Format is not valid")
  else if a.commformat ≠ COMM_I2S_MSB ∧ a.commformat ≠ COMM_I2S_LSB then
    some (.valueError "Communication Format is not valid")
  else if int16_of a.dmacount < 2 ∨ int16_of a.dmacount > 128 then
    some (.valueError "DMA Buffer Count is not valid.  Allowed range is [2, 128]")
  else if int16_of a.dmalen < 8 ∨ int16_of a.dmalen > 1024 then
    some (.valueError "DMA Buffer Length is not valid.  Allowed range is [8, 1024]")
  else
    match machine_pin_get_gpio a.sck, machine_pin_get_gpio a.ws,
        machine_pin_get_gpio a.sdin with
    | .error e, _, _ => some e
    | .ok _, .error e, _ => some e
    | .ok _, .ok _, .error e => some e
    | .ok _, .ok _, .ok _ => none

/-! ### Trace semantics

A world is the process-wide registry together with the live instance
objects.  Each object carries, besides the struct the source keeps, a ghost
lifecycle status following the spec's state machine (section 4.4): an object
is Configured after a successful construction or `init`, Released after
`deinit` or after an `init` whose re-validation failed.  Objects are
identified by their position in the list. -/

/-- Spec section 4.4 lifecycle status (ghost; the source keeps no such
field). -/
inductive ObjStatus
  | configured
  | released
deriving DecidableEq

/-- One live instance object: its struct plus the ghost lifecycle status. -/
structure LiveObj where
  conf : machine_i2s_obj_t
  status : ObjStatus
deriving DecidableEq

/-- Process state: the claim registry plus the live instance objects. -/
structure World where
  registry : Registry
  objs : List LiveObj
deriving DecidableEq

/-- Process start: both units free, no live objects. -/
def initialWorld : World := ⟨initialRegistry, []⟩

/-- The four entry points, as events of a trace.  Construction carries the
driver environment and arguments; `init`, `readinto` and `deinit` name a
live object by its position. -/
inductive Event
  | construct (env : DriverEnv) (a : Args)
  | initEv (oid : Nat) (env : DriverEnv) (a : Args)
  | readEv (oid : Nat) (env : ReadEnv) (a : ReadArgs)
  | deinitEv (oid : Nat)

/-- One entry-point call.  A failed construction produces no object (the
runtime discards the raised-into allocation); a failed `init` leaves the
object Released with whatever fields the helper last wrote; `readinto`
changes no process state; `deinit` releases the stored port and marks the
object Released.  Events naming no live object are no-ops. -/
def step (w : World) : Event → World
  | .construct env a =>
    match machine_i2s_init_helper env a w.registry with
    | ⟨.ok obj, reg, _, _⟩ => ⟨reg, w.objs ++ [⟨obj, .configured⟩]⟩
    | ⟨.error _, reg, _, _⟩ => ⟨reg, w.objs⟩
  | .initEv oid env a =>
    match w.objs.get? oid with
    | none => w
    | some o =>
      match machine_i2s_init_helper env a
          (machine_i2s_release_port w.registry o.conf.id) with
      | ⟨.ok obj, reg, _, _⟩ => ⟨reg, w.objs.set oid ⟨obj, .configured⟩⟩
      | ⟨.error _, reg, _, wr⟩ => ⟨reg, w.objs.set oid ⟨wr.getD o.conf, .released⟩⟩
  | .readEv _ _ _ => w
  | .deinitEv oid =>
    match w.objs.get? oid with
    | none => w
    | some o =>
      ⟨machine_i2s_release_port w.registry o.conf.id,
        w.objs.set oid ⟨o.conf, .released⟩⟩

/-- Run a trace of events from the initial world. -/
def runTrace (es : List Event) : World := es.foldl step initialWorld

/-- The object at position `oid` holds the claim for unit `i`, in the
spec's lifecycle reading: it is a live Configured instance whose stored
unit index is `i`. -/
def holdsB (i : Fin 2) (o : LiveObj) : Bool :=
  decide (o.status = .configured ∧ o.conf.id = i)

/-- An event is lifecycle-respecting when it does not invoke `init` or
`deinit` on an instance that is already Released. -/
def goodEvent (w : World) : Event → Bool
  | .construct _ _ => true
  | .readEv _ _ _ => true
  | .initEv oid _ _ =>
    match w.objs.get? oid with
    | some o => decide (o.status = .configured)
    | none => true
  | .deinitEv oid =>
    match w.objs.get? oid with
    | some o => decide (o.status = .configured)
    | none => true

/-- A trace is lifecycle-respecting when every event is, in the state where
it runs. -/
def goodTrace (w : World) : List Event → Bool
  | [] => true
  | e :: es => goodEvent w e && goodTrace (step w e) es

/-- The claim-exclusivity invariant together with its inductive
strengthening: a unit whose registry entry is free has no live Configured
holder, and every unit has at most one live Configured holder. -/
def Inv (w : World) : Prop :=
  ∀ i : Fin 2,
    (w.registry.get i = .NOT_USED → w.objs.countP (holdsB i) = 0) ∧
    w.objs.countP (holdsB i) ≤ 1

/-! ### Concrete inputs shared by witnesses and counterexamples -/

/-- A fully valid argument record for unit 0 (Master/Rx, 16 kHz, 16-bit,
only-left, I2S|MSB, pins 13/14/34). -/
def args0 : Args :=
  ⟨0, 9, 16000, 16, 4, 3, 16, 64, false, 0, some 13, some 14, none, some 34⟩

/-- The same configuration for unit 1. -/
def args1 : Args :=
  ⟨1, 9, 16000, 16, 4, 3, 16, 64, false, 0, some 13, some 14, none, some 34⟩

/-- Both configuration-stage collaborators succeed (`ESP_OK`). -/
def envOK : DriverEnv := ⟨0, 0⟩

/-- The instance struct a successful construction from `args0` produces. -/
def obj0val : machine_i2s_obj_t :=
  ⟨0, 9, 16000, 16, 4, 3, 16, 64, false, 0, 13, 14, 34⟩

/-- An argument record whose id (5) is invalid; all other options valid. -/
def argsBadId : Args :=
  ⟨5, 9, 16000, 16, 4, 3, 16, 64, false, 0, some 13, some 14, none, some 34⟩

/-- An argument record with dmacount 65538, far outside [2, 128]; all other
options valid. -/
def argsBigDma : Args :=
  ⟨0, 9, 16000, 16, 4, 3, 65538, 64, false, 0, some 13, some 14, none, some 34⟩

/-! ### Basic lemmas about the registry and the collaborator stages -/

theorem Registry.get_set (st : Registry) (p q : Fin 2) (v : machine_i2s_port_state_t) :
    (st.set p v).get q = if q = p then v else st.get q := by
  fin_cases p <;> fin_cases q <;> simp [Registry.get, Registry.set]

theorem acquire_true {st st1 : Registry} {p : Fin 2}
    (h : machine_i2s_acquire_port st p = (true, st1)) :
    st.get p = .NOT_USED ∧ st1 = st.set p .USED := by
  unfold machine_i2s_acquire_port at h
  split_ifs at h with hc
  · cases h
    exact ⟨hc, rfl⟩
  · cases h

theorem acquire_false {st st1 : Registry} {p : Fin 2}
    (h : machine_i2s_acquire_port st p = (false, st1)) :
    st1 = st ∧ st.get p = .USED := by
  unfold machine_i2s_acquire_port at h
  split_ifs at h with hc
  · cases h
  · cases h
    refine ⟨rfl, ?_⟩
    cases hg : st.get p with
    | NOT_USED => exact absurd hg hc
    | USED => rfl

theorem configure_registry (env : DriverEnv) (self : machine_i2s_obj_t)
    (st : Registry) : (machine_i2s_configure env self st).registry = st := by
  unfold machine_i2s_configure
  split_ifs <;> rfl

theorem configure_ok_elim {env : DriverEnv} {self o : machine_i2s_obj_t}
    {st : Registry} (h : (machine_i2s_configure env self st).outcome = .ok o) :
    o = self := by
  unfold machine_i2s_configure at h
  split_ifs at h <;> cases h <;> rfl

theorem configure_outcome_ok (env : DriverEnv) (self : machine_i2s_obj_t)
    (st : Registry) (h1 : env.installRet ≠ ESP_ERR_INVALID_ARG)
    (h2 : env.installRet ≠ ESP_ERR_NO_MEM)
    (h3 : env.setPinRet ≠ ESP_ERR_INVALID_ARG) (h4 : env.setPinRet ≠ ESP_FAIL) :
    machine_i2s_configure env self st =
      ⟨.ok self, st,
        [.driverInstall self.id env.installRet, .setPin self.id env.setPinRet],
        some self⟩ := by
  unfold machine_i2s_configure
  split_ifs <;> first | rfl | contradiction

theorem configure_outcome_err (env : DriverEnv) (self : machine_i2s_obj_t)
    (st : Registry)
    (h : env.installRet = ESP_ERR_INVALID_ARG ∨ env.installRet = ESP_ERR_NO_MEM ∨
      env.setPinRet = ESP_ERR_INVALID_ARG ∨ env.setPinRet = ESP_FAIL) :
    ∃ m, (machine_i2s_configure env self st).outcome = .error (.osError m) := by
  unfold machine_i2s_configure
  split_ifs with g1 g2 g3 g4
  · exact ⟨_, rfl⟩
  · exact ⟨_, rfl⟩
  · exact ⟨_, rfl⟩
  · exact ⟨_, rfl⟩
  · rcases h with h | h | h | h <;> contradiction

theorem configure_calls_install_fail (env : DriverEnv) (self : machine_i2s_obj_t)
    (st : Registry)
    (h : env.installRet = ESP_ERR_INVALID_ARG ∨ env.installRet = ESP_ERR_NO_MEM) :
    (machine_i2s_configure env self st).calls =
      [.driverInstall self.id env.installRet] := by
  unfold machine_i2s_configure
  split_ifs <;> first | rfl | (rcases h with h | h <;> contradiction)

theorem configure_calls_install_pass (env : DriverEnv) (self : machine_i2s_obj_t)
    (st : Registry) (h1 : env.installRet ≠ ESP_ERR_INVALID_ARG)
    (h2 : env.installRet ≠ ESP_ERR_NO_MEM) :
    (machine_i2s_configure env self st).calls =
      [.driverInstall self.id env.installRet, .setPin self.id env.setPinRet] := by
  unfold machine_i2s_configure
  split_ifs <;> first | rfl | contradiction

/-! ### Shape lemmas about `machine_i2s_init_helper` -/

theorem helper_validation_error (env : DriverEnv) (a : Args) (st : Registry)
    (e : MpError) (h : validationFirstError a = some e) :
    machine_i2s_init_helper env a st = ⟨.error e, st, [], none⟩ := by
  unfold validationFirstError at h
  unfold machine_i2s_init_helper
  split_ifs at h ⊢ <;>
    first
    | (injection h with h
       rw [h])
    | skip
  cases hsck : machine_pin_get_gpio a.sck with
  | error e1 =>
    rw [hsck] at h
    injection h with h2
    exact h2 ▸ rfl
  | ok v1 =>
    cases hws : machine_pin_get_gpio a.ws with
    | error e2 =>
      rw [hsck, hws] at h
      injection h with h2
      exact h2 ▸ rfl
    | ok v2 =>
      cases hsdin : machine_pin_get_gpio a.sdin with
      | error e3 =>
        rw [hsck, hws, hsdin] at h
        injection h with h2
        exact h2 ▸ rfl
      | ok v3 =>
        rw [hsck, hws, hsdin] at h
        exact Option.noConfusion h

theorem helper_after_claim (env : DriverEnv) (a : Args) (st : Registry)
    (h : validationFirstError a = none)
    (hfree : st.get (argPort a) = .NOT_USED) :
    ∃ obj, obj.id = argPort a ∧ obj.mode = a.mode ∧
      machine_i2s_init_helper env a st =
        machine_i2s_configure env obj (st.set (argPort a) .USED) := by
  have hacq : machine_i2s_acquire_port st (argPort a) =
      (true, st.set (argPort a) .USED) := by
    unfold machine_i2s_acquire_port
    rw [hfree]
    simp
  unfold validationFirstError at h
  unfold machine_i2s_init_helper
  split_ifs at h ⊢
  cases hsck : machine_pin_get_gpio a.sck with
  | error e1 =>
    rw [hsck] at h
    exact Option.noConfusion h
  | ok v1 =>
    cases hws : machine_pin_get_gpio a.ws with
    | error e2 =>
      rw [hsck, hws] at h
      exact Option.noConfusion h
    | ok v2 =>
      cases hsdin : machine_pin_get_gpio a.sdin with
      | error e3 =>
        rw [hsck, hws, hsdin] at h
        exact Option.noConfusion h
      | ok v3 =>
        rw [hacq]
        exact ⟨_, rfl, rfl, rfl⟩

theorem helper_in_use (env : DriverEnv) (a : Args) (st : Registry)
    (h : validationFirstError a = none)
    (hused : st.get (argPort a) = .USED) :
    machine_i2s_init_helper env a st =
      ⟨.error (.valueError "I2S id is already in use"), st, [], none⟩ := by
  have hacq : machine_i2s_acquire_port st (argPort a) = (false, st) := by
    unfold machine_i2s_acquire_port
    rw [hused]
    simp
  unfold validationFirstError at h
  unfold machine_i2s_init_helper
  split_ifs at h ⊢
  cases hsck : machine_pin_get_gpio a.sck with
  | error e1 =>
    rw [hsck] at h
    exact Option.noConfusion h
  | ok v1 =>
    cases hws : machine_pin_get_gpio a.ws with
    | error e2 =>
      rw [hsck, hws] at h
      exact Option.noConfusion h
    | ok v2 =>
      cases hsdin : machine_pin_get_gpio a.sdin with
      | error e3 =>
        rw [hsck, hws, hsdin] at h
        exact Option.noConfusion h
      | ok v3 =>
        rw [hacq]

theorem helper_cases (env : DriverEnv) (a : Args) (st : Registry) :
    (∃ e, machine_i2s_init_helper env a st = ⟨.error e, st, [], none⟩) ∨
    (st.get (argPort a) = .NOT_USED ∧
      (machine_i2s_init_helper env a st).registry = st.set (argPort a) .USED ∧
      ∀ obj, (machine_i2s_init_helper env a st).outcome = .ok obj →
        obj.id = argPort a) := by
  cases hv : validationFirstError a with
  | some e => exact .inl ⟨e, helper_validation_error env a st e hv⟩
  | none =>
    cases hg : st.get (argPort a) with
    | USED => exact .inl ⟨_, helper_in_use env a st hv hg⟩
    | NOT_USED =>
      obtain ⟨obj, hid, _, heq⟩ := helper_after_claim env a st hv hg
      refine .inr ⟨rfl, ?_, ?_⟩
      · rw [heq, configure_registry]
      · intro obj2 hok
        rw [heq] at hok
        rw [configure_ok_elim hok]
        exact hid

theorem helper_free_mono (env : DriverEnv) (a : Args) (st : Registry) (q : Fin 2)
    (h : (machine_i2s_init_helper env a st).registry.get q = .NOT_USED) :
    st.get q = .NOT_USED := by
  rcases helper_cases env a st with ⟨e, he⟩ | ⟨hfree, hreg, _⟩
  · rw [he] at h
    exact h
  · rw [hreg, Registry.get_set] at h
    split at h
    · cases h
    · exact h

theorem helper_ok_elim (env : DriverEnv) (a : Args) (st : Registry)
    (obj : machine_i2s_obj_t)
    (h : (machine_i2s_init_helper env a st).outcome = .ok obj) :
    st.get obj.id = .NOT_USED ∧
      (machine_i2s_init_helper env a st).registry = st.set obj.id .USED := by
  rcases helper_cases env a st with ⟨e, he⟩ | ⟨hfree, hreg, hid⟩
  · rw [he] at h
    exact Except.noConfusion h
  · rw [hid obj h]
    exact ⟨hfree, hreg⟩

/-! ### Counting lemmas for the trace semantics -/

theorem countP_set_eq {α : Type} (p : α → Bool) (l : List α) (n : Nat) (o a : α)
    (h : l.get? n = some o) :
    (l.set n a).countP p + (if p o then 1 else 0) =
      l.countP p + (if p a then 1 else 0) := by
  induction l generalizing n with
  | nil => exact Option.noConfusion h
  | cons x xs ih =>
    cases n with
    | zero =>
      rw [List.get?_cons_zero] at h
      injection h with h
      subst h
      simp only [List.set, List.countP_cons]
      omega
    | succ m =>
      rw [List.get?_cons_succ] at h
      simp only [List.set, List.countP_cons]
      have := ih m h
      omega

theorem countP_append_single {α : Type} (p : α → Bool) (l : List α) (x : α) :
    (l ++ [x]).countP p = l.countP p + (if p x then 1 else 0) := by
  rw [List.countP_append]
  simp [List.countP_cons]

theorem holdsB_configured (obj : machine_i2s_obj_t) (i : Fin 2) :
    holdsB i ⟨obj, .configured⟩ = decide (obj.id = i) := by
  simp [holdsB]

theorem holdsB_released (obj : machine_i2s_obj_t) (i : Fin 2) :
    holdsB i ⟨obj, .released⟩ = false := by
  simp [holdsB]

/-! ### Preservation of the exclusivity invariant along lifecycle-respecting
traces -/

theorem inv_mk (r : Registry) (l : List LiveObj)
    (h : ∀ i : Fin 2, (r.get i = .NOT_USED → l.countP (holdsB i) = 0) ∧
      l.countP (holdsB i) ≤ 1) : Inv ⟨r, l⟩ := h

theorem inv_construct (w : World) (env : DriverEnv) (a : Args) (hInv : Inv w) :
    Inv (step w (.construct env a)) := by
  rcases hr : machine_i2s_init_helper env a w.registry with ⟨out, reg, cs, wr⟩
  cases out with
  | ok obj =>
    have hok := helper_ok_elim env a w.registry obj (by rw [hr])
    have hok1 : w.registry.get obj.id = .NOT_USED := hok.1
    have hok2 : reg = w.registry.set obj.id .USED := by
      have h2 := hok.2
      rw [hr] at h2
      exact h2
    simp only [step, hr]
    refine inv_mk _ _ ?_
    intro i
    rw [countP_append_single, holdsB_configured]
    by_cases hi : i = obj.id
    · subst hi
      constructor
      · intro hfree
        rw [hok2, Registry.get_set, if_pos rfl] at hfree
        exact machine_i2s_port_state_t.noConfusion hfree
      · have h0 := (hInv obj.id).1 hok1
        simp [h0]
    · have hd : (decide (obj.id = i)) = false := decide_eq_false fun hh => hi hh.symm
      rw [hd]
      simp only [if_neg (Bool.false_ne_true), Nat.add_zero]
      constructor
      · intro hfree
        rw [hok2, Registry.get_set, if_neg hi] at hfree
        exact (hInv i).1 hfree
      · exact (hInv i).2
  | error e =>
    simp only [step, hr]
    refine inv_mk _ _ ?_
    intro i
    refine ⟨fun hfree => ?_, (hInv i).2⟩
    have hm := helper_free_mono env a w.registry i (by rw [hr]; exact hfree)
    exact (hInv i).1 hm

theorem inv_deinit (w : World) (oid : Nat) (hInv : Inv w)
    (hg : goodEvent w (.deinitEv oid) = true) : Inv (step w (.deinitEv oid)) := by
  cases ho : w.objs.get? oid with
  | none =>
    simp only [step, ho]
    exact hInv
  | some o =>
    have hst : o.status = .configured := by
      simp only [goodEvent, ho, decide_eq_true_eq] at hg
      exact hg
    simp only [step, ho]
    refine inv_mk _ _ ?_
    intro i
    have hcnt := countP_set_eq (holdsB i) w.objs oid o ⟨o.conf, .released⟩ ho
    rw [holdsB_released] at hcnt
    simp only [if_neg (Bool.false_ne_true), Nat.add_zero] at hcnt
    unfold machine_i2s_release_port
    by_cases hi : i = o.conf.id
    · subst hi
      have hh : holdsB o.conf.id o = true := by
        simp [holdsB, hst]
      rw [hh, if_pos rfl] at hcnt
      have h1 := (hInv o.conf.id).2
      exact ⟨fun _ => by omega, by omega⟩
    · have hh : holdsB i o = false := by
        have h2 : ¬(o.conf.id = i) := fun hh2 => hi hh2.symm
        simp [holdsB, hst, h2]
      rw [hh] at hcnt
      simp only [if_neg (Bool.false_ne_true), Nat.add_zero] at hcnt
      rw [Registry.get_set, if_neg hi, hcnt]
      exact hInv i

theorem inv_init (w : World) (oid : Nat) (env : DriverEnv) (a : Args)
    (hInv : Inv w) (hg : goodEvent w (.initEv oid env a) = true) :
    Inv (step w (.initEv oid env a)) := by
  cases ho : w.objs.get? oid with
  | none =>
    simp only [step, ho]
    exact hInv
  | some o =>
    have hst : o.status = .configured := by
      simp only [goodEvent, ho, decide_eq_true_eq] at hg
      exact hg
    rcases hr : machine_i2s_init_helper env a
        (machine_i2s_release_port w.registry o.conf.id) with ⟨out, reg, cs, wr⟩
    cases out with
    | ok obj =>
      have hok := helper_ok_elim env a _ obj (by rw [hr])
      have hok1 : (machine_i2s_release_port w.registry o.conf.id).get obj.id =
          .NOT_USED := hok.1
      have hok2 : reg = (machine_i2s_release_port w.registry o.conf.id).set
          obj.id .USED := by
        have h2 := hok.2
        rw [hr] at h2
        exact h2
      simp only [step, ho, hr]
      refine inv_mk _ _ ?_
      intro i
      have hcnt := countP_set_eq (holdsB i) w.objs oid o ⟨obj, .configured⟩ ho
      rw [holdsB_configured] at hcnt
      by_cases hio : i = o.conf.id
      · by_cases hib : i = obj.id
        · -- the instance re-claims the unit it previously held
          have hh : holdsB i o = true := by
            subst hio
            simp [holdsB, hst]
          rw [hh, if_pos rfl] at hcnt
          have hb : (decide (obj.id = i)) = true := decide_eq_true hib.symm
          rw [hb, if_pos rfl] at hcnt
          constructor
          · intro hfree
            rw [hok2, hib, Registry.get_set, if_pos rfl] at hfree
            exact machine_i2s_port_state_t.noConfusion hfree
          · have h1 := (hInv i).2
            omega
        · -- the instance held unit i and moved to another unit
          have hh : holdsB i o = true := by
            subst hio
            simp [holdsB, hst]
          rw [hh, if_pos rfl] at hcnt
          have hb : (decide (obj.id = i)) = false :=
            decide_eq_false fun hh2 => hib hh2.symm
          rw [hb] at hcnt
          simp only [if_neg (Bool.false_ne_true), Nat.add_zero] at hcnt
          have h1 := (hInv i).2
          exact ⟨fun _ => by omega, by omega⟩
      · by_cases hib : i = obj.id
        · -- a fresh unit is claimed; it was free, so nobody held it
          have hh : holdsB i o = false := by
            have h2 : ¬(o.conf.id = i) := fun hh2 => hio hh2.symm
            simp [holdsB, hst, h2]
          rw [hh] at hcnt
          simp only [if_neg (Bool.false_ne_true), Nat.add_zero] at hcnt
          have hb : (decide (obj.id = i)) = true := decide_eq_true hib.symm
          rw [hb, if_pos rfl] at hcnt
          have hfree0 : w.registry.get i = .NOT_USED := by
            have h1 := hok1
            unfold machine_i2s_release_port at h1
            rw [Registry.get_set,
              if_neg (fun hh2 : obj.id = o.conf.id => hio (hib.trans hh2))] at h1
            rw [hib]
            exact h1
          have h0 := (hInv i).1 hfree0
          constructor
          · intro hfree
            rw [hok2, hib, Registry.get_set, if_pos rfl] at hfree
            exact machine_i2s_port_state_t.noConfusion hfree
          · omega
        · -- unit i untouched by this event
          have hh : holdsB i o = false := by
            have h2 : ¬(o.conf.id = i) := fun hh2 => hio hh2.symm
            simp [holdsB, hst, h2]
          rw [hh] at hcnt
          simp only [if_neg (Bool.false_ne_true), Nat.add_zero] at hcnt
          have hb : (decide (obj.id = i)) = false :=
            decide_eq_false fun hh2 => hib hh2.symm
          rw [hb] at hcnt
          simp only [if_neg (Bool.false_ne_true), Nat.add_zero] at hcnt
          have hreg : reg.get i = w.registry.get i := by
            rw [hok2, Registry.get_set, if_neg hib]
            unfold machine_i2s_release_port
            rw [Registry.get_set, if_neg hio]
          rw [hreg, hcnt]
          exact hInv i
    | error e =>
      simp only [step, ho, hr]
      refine inv_mk _ _ ?_
      intro i
      have hcnt := countP_set_eq (holdsB i) w.objs oid o ⟨wr.getD o.conf, .released⟩ ho
      rw [holdsB_released] at hcnt
      simp only [if_neg (Bool.false_ne_true), Nat.add_zero] at hcnt
      by_cases hio : i = o.conf.id
      · have hh : holdsB i o = true := by
          subst hio
          simp [holdsB, hst]
        rw [hh, if_pos rfl] at hcnt
        have h1 := (hInv i).2
        exact ⟨fun _ => by omega, by omega⟩
      · have hh : holdsB i o = false := by
          have h2 : ¬(o.conf.id = i) := fun hh2 => hio hh2.symm
          simp [holdsB, hst, h2]
        rw [hh] at hcnt
        simp only [if_neg (Bool.false_ne_true), Nat.add_zero] at hcnt
        refine ⟨fun hfree => ?_, by rw [hcnt]; exact (hInv i).2⟩
        have hm := helper_free_mono env a _ i (by rw [hr]; exact hfree)
        unfold machine_i2s_release_port at hm
        rw [Registry.get_set, if_neg hio] at hm
        rw [hcnt]
        exact (hInv i).1 hm

theorem step_inv (w : World) (e : Event) (hInv : Inv w)
    (hg : goodEvent w e = true) : Inv (step w e) := by
  cases e with
  | construct env a => exact inv_construct w env a hInv
  | initEv oid env a => exact inv_init w oid env a hInv hg
  | readEv oid env a => simpa [step] using hInv
  | deinitEv oid => exact inv_deinit w oid hInv hg

theorem steps_inv (es : List Event) (w : World) (hInv : Inv w)
    (hg : goodTrace w es = true) : Inv (es.foldl step w) := by
  induction es generalizing w with
  | nil => exact hInv
  | cons e es ih =>
    rw [goodTrace, Bool.and_eq_true] at hg
    exact ih (step w e) (step_inv w e hInv hg.1) hg.2

theorem inv_initial : Inv initialWorld := by
  intro i
  exact ⟨fun _ => rfl, Nat.zero_le 1⟩

/-! ### The claims -/

/-- C1 counterexample: the claim-exclusivity invariant fails as stated.  The
trace constructs an instance on unit 0, deinits it, constructs a second
instance on unit 0, repeats the (idempotent, spec-sanctioned) deinit of the
first, already-Released instance — which unconditionally frees unit 0 out
from under the second instance — and then constructs a third instance on
unit 0.  The reached state has two live Configured instances holding unit 0
at the same time. -/
theorem claim_exclusivity_cex :
    (runTrace [.construct envOK args0, .deinitEv 0, .construct envOK args0,
      .deinitEv 0, .construct envOK args0]).objs =
      [⟨obj0val, .released⟩, ⟨obj0val, .configured⟩, ⟨obj0val, .configured⟩] ∧
    (runTrace [.construct envOK args0, .deinitEv 0, .construct envOK args0,
      .deinitEv 0, .construct envOK args0]).objs.countP (holdsB 0) = 2 := by
  constructor
  · decide
  · decide

/-- C1 (amended): in every state reachable by a sequence of construction,
init, readinto, and deinit calls in which init and deinit are only invoked
on instances still in the Configured state, at most one live instance holds
the claim for a given unit index.  (Without that restriction the invariant
fails: deinit and the release step of init free the stored unit
unconditionally, so a stale call releases a unit a different live
Configured instance holds, as `claim_exclusivity_cex` shows.) -/
theorem claim_exclusivity_guarded (es : List Event) (i : Fin 2)
    (h : goodTrace initialWorld es = true) :
    (runTrace es).objs.countP (holdsB i) ≤ 1 :=
  ((steps_inv es initialWorld inv_initial h) i).2

theorem claim_exclusivity_guarded_witness :
    goodTrace initialWorld
      [.construct envOK args0, .deinitEv 0, .construct envOK args0] = true ∧
    (runTrace [.construct envOK args0, .deinitEv 0, .construct envOK args0]
      ).objs.countP (holdsB 0) ≤ 1 :=
  ⟨by decide, claim_exclusivity_guarded
    [.construct envOK args0, .deinitEv 0, .construct envOK args0] 0 (by decide)⟩

/-- C2 counterexample: a construction whose dmacount argument (65538) is
outside [2, 128] does not raise a value error — the code narrows the
argument to `int16_t` (65538 wraps to 2) before the range check, so the
construction succeeds and stores dmacount 2. -/
theorem validation_dmacount_truncation_cex :
    argsBigDma.dmacount = 65538 ∧
    ((65538 : Int) < 2 ∨ (65538 : Int) > 128) ∧
    (machine_i2s_make_new envOK argsBigDma initialRegistry).outcome =
      .ok ⟨0, 9, 16000, 16, 4, 3, 2, 64, false, 0, 13, 14, 34⟩ := by
  refine ⟨rfl, ?_, ?_⟩
  · decide
  · decide

/-- C2 (amended): for every construction in which argument validation fails
— id not in set 0 1, mode not master-receive, bits not in set 8 16 24 32,
invalid channel format, invalid communication format, the 16-bit-narrowed
dmacount outside [2, 128], the 16-bit-narrowed dmalen outside [8, 1024], or
pin resolution failure — the first failing check's value error is raised,
no collaborator is called, and the claim registry is left unchanged; the
checks run in the fixed order id, mode, bits, channel format, comm format,
dma count, dma length, pin resolution, and the unit-claim attempt comes
last, so no validation failure ever leaves a unit claimed.
(`validationFirstError` encodes the spec's order; the theorem shows the
code realises it exactly.) -/
theorem validation_order_amended (env : DriverEnv) (a : Args) (st : Registry)
    (e : MpError) (h : validationFirstError a = some e) :
    machine_i2s_make_new env a st = ⟨.error e, st, [], none⟩ :=
  helper_validation_error env a st e h

theorem validation_order_amended_witness :
    validationFirstError argsBadId = some (.valueError "I2S ID is not valid") ∧
    machine_i2s_make_new envOK argsBadId initialRegistry =
      ⟨.error (.valueError "I2S ID is not valid"), initialRegistry, [], none⟩ :=
  ⟨by decide, validation_order_amended envOK argsBadId initialRegistry
    (.valueError "I2S ID is not valid") (by decide)⟩

/-- C3 counterexample: when `i2s_driver_install` returns the enumerated
failure code `ESP_ERR_INVALID_ARG`, the binding raises an OSError from
inside the switch (`mp_raise_msg` does not return), so the pin-assignment
call is NOT issued — refuting the claim that it is attempted for every
install status code including the two enumerated failure codes. -/
theorem set_pin_after_install_cex :
    (machine_i2s_init_helper ⟨ESP_ERR_INVALID_ARG, 0⟩ args0 initialRegistry
      ).outcome = .error (.osError "I2S driver install:  Parameter error") ∧
    (machine_i2s_init_helper ⟨ESP_ERR_INVALID_ARG, 0⟩ args0 initialRegistry
      ).calls = [.driverInstall 0 ESP_ERR_INVALID_ARG] := by
  constructor
  · decide
  · decide

/-- C3 (amended): after a successful validation and unit claim, the
pin-assignment call is issued after `i2s_driver_install` for every install
status code OTHER than the two enumerated failure codes — including unknown
non-success codes, which fall through as success; on parameter-error or
out-of-memory an OSError is raised and no pin-assignment call is issued. -/
theorem set_pin_after_install_amended (env : DriverEnv) (a : Args)
    (st : Registry) (hv : validationFirstError a = none)
    (hfree : st.get (argPort a) = .NOT_USED) :
    (env.installRet ≠ ESP_ERR_INVALID_ARG ∧ env.installRet ≠ ESP_ERR_NO_MEM →
      (machine_i2s_init_helper env a st).calls =
        [.driverInstall (argPort a) env.installRet,
          .setPin (argPort a) env.setPinRet]) ∧
    (env.installRet = ESP_ERR_INVALID_ARG ∨ env.installRet = ESP_ERR_NO_MEM →
      (machine_i2s_init_helper env a st).calls =
        [.driverInstall (argPort a) env.installRet]) := by
  obtain ⟨obj, hid, hmode, heq⟩ := helper_after_claim env a st hv hfree
  constructor
  · intro hi
    rw [heq, configure_calls_install_pass env obj _ hi.1 hi.2, hid]
  · intro hi
    rw [heq, configure_calls_install_fail env obj _ hi, hid]

theorem set_pin_after_install_amended_witness :
    (machine_i2s_init_helper ⟨300, 0⟩ args0 initialRegistry).calls =
      [.driverInstall (argPort args0) 300, .setPin (argPort args0) 0] :=
  (set_pin_after_install_amended ⟨300, 0⟩ args0 initialRegistry (by decide)
    (by decide)).1 (by decide)

/-- C4: `init(new config)` releases the current unit claim and issues the
driver uninstall unconditionally before validating the new arguments: when
the new validation fails, the call raises that validation's value error,
the old unit's registry entry is left free, and the only collaborator call
issued is the uninstall — the old configuration is not reinstalled. -/
theorem init_release_before_validate (env : DriverEnv)
    (self : machine_i2s_obj_t) (a : Args) (st : Registry) (e : MpError)
    (h : validationFirstError a = some e) :
    machine_i2s_init env self a st =
      ⟨.error e, machine_i2s_release_port st self.id,
        [.driverUninstall self.id], none⟩ ∧
    (machine_i2s_release_port st self.id).get self.id = .NOT_USED := by
  constructor
  · simp only [machine_i2s_init]
    rw [helper_validation_error env a (machine_i2s_release_port st self.id) e h]
  · unfold machine_i2s_release_port
    rw [Registry.get_set, if_pos rfl]

theorem init_release_before_validate_witness :
    machine_i2s_init envOK obj0val argsBadId ⟨.USED, .USED⟩ =
      ⟨.error (.valueError "I2S ID is not valid"), ⟨.NOT_USED, .USED⟩,
        [.driverUninstall 0], none⟩ :=
  (init_release_before_validate envOK obj0val argsBadId ⟨.USED, .USED⟩
    (.valueError "I2S ID is not valid") (by decide)).1

/-- C5: when validation and the unit claim succeed but `i2s_driver_install`
or `i2s_set_pin` returns one of the enumerated failure codes, an
OSError-class error is raised after the claim has already been taken, and
the claim is not rolled back: the unit's registry entry is still claimed
after the error. -/
theorem oserror_claim_not_rolled_back (env : DriverEnv) (a : Args)
    (st : Registry) (hv : validationFirstError a = none)
    (hfree : st.get (argPort a) = .NOT_USED)
    (herr : env.installRet = ESP_ERR_INVALID_ARG ∨
      env.installRet = ESP_ERR_NO_MEM ∨
      env.setPinRet = ESP_ERR_INVALID_ARG ∨ env.setPinRet = ESP_FAIL) :
    (∃ m, (machine_i2s_init_helper env a st).outcome = .error (.osError m)) ∧
    (machine_i2s_init_helper env a st).registry.get (argPort a) = .USED := by
  obtain ⟨obj, hid, hmode, heq⟩ := helper_after_claim env a st hv hfree
  constructor
  · rw [heq]
    exact configure_outcome_err env obj _ herr
  · rw [heq, configure_registry, Registry.get_set, if_pos rfl]

theorem oserror_claim_not_rolled_back_witness :
    (machine_i2s_init_helper ⟨ESP_ERR_NO_MEM, 0⟩ args0 initialRegistry
      ).registry.get (argPort args0) = .USED :=
  (oserror_claim_not_rolled_back ⟨ESP_ERR_NO_MEM, 0⟩ args0 initialRegistry
    (by decide) (by decide) (by decide)).2

/-- C6 counterexample: `readinto` on an instance in the Released state is
NOT rejected.  After construction and deinit the instance is Released, its
stored mode is still Master/Rx (deinit clears nothing), and `readinto`
passes the only check the code performs, issues the blocking transfer, and
returns the byte count. -/
theorem readinto_released_cex :
    (runTrace [.construct envOK args0, .deinitEv 0]).objs =
      [⟨obj0val, .released⟩] ∧
    machine_i2s_readinto ⟨0, 32⟩ obj0val ⟨64, -1⟩ =
      ⟨.ok 32, [.i2sRead 0 64 0 32]⟩ := by
  constructor
  · decide
  · decide

/-- C6 (amended): `readinto` is rejected exactly when the instance's stored
mode differs from master-receive — the mode value is the only condition
checked; the Configured/Released lifecycle state is not consulted, so
whenever the stored mode is master-receive (as it is for every constructed
instance, also after deinit) the blocking transfer is issued. -/
theorem readinto_mode_check_amended (env : ReadEnv)
    (self : machine_i2s_obj_t) (a : ReadArgs) :
    ((machine_i2s_readinto env self a).outcome =
        .error (.valueError "Communication Mode must be Master/Rx") ↔
      self.mode ≠ MODE_MASTER_RX) ∧
    (self.mode = MODE_MASTER_RX →
      (machine_i2s_readinto env self a).calls =
        [.i2sRead self.id a.bufLen env.readRet env.bytesRead]) := by
  unfold machine_i2s_readinto
  by_cases hm : self.mode = MODE_MASTER_RX
  · rw [if_neg (fun hne => hne hm)]
    constructor
    · constructor
      · intro hout
        by_cases hr : env.readRet = ESP_ERR_INVALID_ARG
        · rw [if_pos hr] at hout
          have h2 := Except.error.inj hout
          exact MpError.noConfusion h2
        · rw [if_neg hr] at hout
          exact Except.noConfusion hout
      · intro hne
        exact absurd hm hne
    · intro _
      by_cases hr : env.readRet = ESP_ERR_INVALID_ARG
      · rw [if_pos hr]
      · rw [if_neg hr]
  · rw [if_pos hm]
    constructor
    · exact ⟨fun _ => hm, fun _ => rfl⟩
    · intro hmm
      exact absurd hmm hm

theorem readinto_mode_check_amended_witness :
    (machine_i2s_readinto ⟨0, 32⟩ obj0val ⟨64, -1⟩).calls =
      [.i2sRead 0 64 0 32] :=
  (readinto_mode_check_amended ⟨0, 32⟩ obj0val ⟨64, -1⟩).2 (by decide)

/-- C7: when a construction claims a unit and a second construction with
the same unit id (and otherwise valid arguments) is attempted while the
first is not yet released, the second fails with the value error "I2S id is
already in use", issues no collaborator call, leaves the registry
unchanged, and the registry entry for that id is still the first
construction's single claim. -/
theorem second_claim_rejected (env1 env2 : DriverEnv) (a1 a2 : Args)
    (st : Registry) (hv1 : validationFirstError a1 = none)
    (hv2 : validationFirstError a2 = none) (hsame : argPort a2 = argPort a1)
    (hfree : st.get (argPort a1) = .NOT_USED)
    (h1 : env1.installRet ≠ ESP_ERR_INVALID_ARG)
    (h2 : env1.installRet ≠ ESP_ERR_NO_MEM)
    (h3 : env1.setPinRet ≠ ESP_ERR_INVALID_ARG)
    (h4 : env1.setPinRet ≠ ESP_FAIL) :
    (machine_i2s_make_new env1 a1 st).outcome.isOk = true ∧
    machine_i2s_make_new env2 a2 (machine_i2s_make_new env1 a1 st).registry =
      ⟨.error (.valueError "I2S id is already in use"),
        (machine_i2s_make_new env1 a1 st).registry, [], none⟩ ∧
    (machine_i2s_make_new env1 a1 st).registry.get (argPort a1) = .USED := by
  obtain ⟨obj, hid, hmode, heq⟩ := helper_after_claim env1 a1 st hv1 hfree
  have hreg1 : (machine_i2s_make_new env1 a1 st).registry =
      st.set (argPort a1) .USED := by
    unfold machine_i2s_make_new
    rw [heq, configure_registry]
  have hused : (machine_i2s_make_new env1 a1 st).registry.get (argPort a1) =
      .USED := by
    rw [hreg1, Registry.get_set, if_pos rfl]
  refine ⟨?_, ?_, hused⟩
  · unfold machine_i2s_make_new
    rw [heq, configure_outcome_ok env1 obj _ h1 h2 h3 h4]
    rfl
  · have huse := helper_in_use env2 a2 (machine_i2s_make_new env1 a1 st).registry
      hv2 (by rw [hsame]; exact hused)
    exact huse

theorem second_claim_rejected_witness :
    machine_i2s_make_new envOK args0
        (machine_i2s_make_new envOK args0 initialRegistry).registry =
      ⟨.error (.valueError "I2S id is already in use"),
        (machine_i2s_make_new envOK args0 initialRegistry).registry, [],
        none⟩ :=
  (second_claim_rejected envOK envOK args0 args0 initialRegistry (by decide)
    (by decide) rfl (by decide) (by decide) (by decide) (by decide)
    (by decide)).2.1

/-- C8: `deinit` raises nothing and leaves the instance's unit free in the
registry; a second `deinit` on the same instance again raises nothing and
still leaves the unit free (release is idempotent); and after `deinit` a
new construction with the same unit id (valid arguments, successful driver
calls) succeeds. -/
theorem deinit_idempotent_reclaim (self : machine_i2s_obj_t) (st : Registry)
    (env : DriverEnv) (a : Args) (hv : validationFirstError a = none)
    (hp : argPort a = self.id)
    (h1 : env.installRet ≠ ESP_ERR_INVALID_ARG)
    (h2 : env.installRet ≠ ESP_ERR_NO_MEM)
    (h3 : env.setPinRet ≠ ESP_ERR_INVALID_ARG)
    (h4 : env.setPinRet ≠ ESP_FAIL) :
    (machine_i2s_deinit self st).outcome = .ok () ∧
    (machine_i2s_deinit self st).registry.get self.id = .NOT_USED ∧
    (machine_i2s_deinit self
      ((machine_i2s_deinit self st).registry)).outcome = .ok () ∧
    (machine_i2s_deinit self
      ((machine_i2s_deinit self st).registry)).registry.get self.id =
        .NOT_USED ∧
    (machine_i2s_make_new env a
      ((machine_i2s_deinit self st).registry)).outcome.isOk = true := by
  have ht : ∀ s : Registry,
      (machine_i2s_deinit self s).registry.get self.id = .NOT_USED := by
    intro s
    show (machine_i2s_release_port s self.id).get self.id = .NOT_USED
    unfold machine_i2s_release_port
    rw [Registry.get_set, if_pos rfl]
  refine ⟨rfl, ht st, rfl, ht _, ?_⟩
  have hfree : ((machine_i2s_deinit self st).registry).get (argPort a) =
      .NOT_USED := by
    rw [hp]
    exact ht st
  obtain ⟨obj, hid, hmode, heq⟩ :=
    helper_after_claim env a ((machine_i2s_deinit self st).registry) hv hfree
  unfold machine_i2s_make_new
  rw [heq, configure_outcome_ok env obj _ h1 h2 h3 h4]
  rfl

theorem deinit_idempotent_reclaim_witness :
    (machine_i2s_make_new envOK args0
      ((machine_i2s_deinit obj0val ⟨.USED, .NOT_USED⟩).registry)
      ).outcome.isOk = true :=
  (deinit_idempotent_reclaim obj0val ⟨.USED, .NOT_USED⟩ envOK args0
    (by decide) (by decide) (by decide) (by decide) (by decide)
    (by decide)).2.2.2.2

/-- C9: for an instance in master-receive mode and a writable buffer of
capacity N, assuming the blocking-read collaborator honours its contract of
filling at most N bytes, `readinto` returns a byte count never greater than
N, and it raises an error exactly when the collaborator returns the
parameter-error status code — a short read alone never raises. -/
theorem readinto_byte_count_bound (env : ReadEnv) (self : machine_i2s_obj_t)
    (a : ReadArgs) (hmode : self.mode = MODE_MASTER_RX)
    (hcontract : env.bytesRead ≤ a.bufLen) :
    (∀ n, (machine_i2s_readinto env self a).outcome = .ok n → n ≤ a.bufLen) ∧
    ((∃ m, (machine_i2s_readinto env self a).outcome = .error (.osError m)) ↔
      env.readRet = ESP_ERR_INVALID_ARG) := by
  unfold machine_i2s_readinto
  rw [if_neg (fun hne => hne hmode)]
  by_cases hr : env.readRet = ESP_ERR_INVALID_ARG
  · rw [if_pos hr]
    constructor
    · intro n hn
      exact Except.noConfusion hn
    · exact ⟨fun _ => hr, fun _ => ⟨_, rfl⟩⟩
  · rw [if_neg hr]
    constructor
    · intro n hn
      have h2 : env.bytesRead = n := Except.ok.inj hn
      rw [← h2]
      exact hcontract
    · constructor
      · intro hex
        obtain ⟨m, hm⟩ := hex
        exact Except.noConfusion hm
      · intro hrr
        exact absurd hrr hr

theorem readinto_byte_count_bound_witness : (32 : Nat) ≤ (64 : Nat) :=
  (readinto_byte_count_bound ⟨0, 32⟩ obj0val ⟨64, -1⟩ (by decide)
    (by decide)).1 32 (by decide)

/-- C10: `machine_i2s_release_port`, `deinit`, and the release step of
`init` set the registry entry for the stored unit id to free
unconditionally — for every prior registry state — without checking that
the calling instance currently holds the claim; in particular (last
conjunct, a concrete trace) a stale second deinit frees unit 0 while a
different live Configured instance holds it. -/
theorem release_unconditional :
    (∀ (st : Registry) (p : Fin 2),
      (machine_i2s_release_port st p).get p = .NOT_USED) ∧
    (∀ (self : machine_i2s_obj_t) (st : Registry),
      (machine_i2s_deinit self st).registry.get self.id = .NOT_USED) ∧
    (∀ (env : DriverEnv) (self : machine_i2s_obj_t) (a : Args)
      (st : Registry), argPort a ≠ self.id →
      (machine_i2s_init env self a st).registry.get self.id = .NOT_USED) ∧
    ((runTrace [.construct envOK args0, .deinitEv 0, .construct envOK args0]
        ).registry.get 0 = .USED ∧
      (runTrace [.construct envOK args0, .deinitEv 0, .construct envOK args0]
        ).objs.get? 1 = some ⟨obj0val, .configured⟩ ∧
      (runTrace [.construct envOK args0, .deinitEv 0, .construct envOK args0,
        .deinitEv 0]).registry.get 0 = .NOT_USED ∧
      (runTrace [.construct envOK args0, .deinitEv 0, .construct envOK args0,
        .deinitEv 0]).objs.get? 1 = some ⟨obj0val, .configured⟩) := by
  have hrel : ∀ (st : Registry) (p : Fin 2),
      (machine_i2s_release_port st p).get p = .NOT_USED := by
    intro s p
    unfold machine_i2s_release_port
    rw [Registry.get_set, if_pos rfl]
  refine ⟨hrel, ?_, ?_, by decide, by decide, by decide, by decide⟩
  · intro self s
    show (machine_i2s_release_port s self.id).get self.id = .NOT_USED
    exact hrel s self.id
  · intro env self a s hne
    show (machine_i2s_init_helper env a
      (machine_i2s_release_port s self.id)).registry.get self.id = .NOT_USED
    rcases helper_cases env a (machine_i2s_release_port s self.id) with
      ⟨e, he⟩ | ⟨hfreep, hreg, _⟩
    · rw [he]
      exact hrel s self.id
    · rw [hreg, Registry.get_set, if_neg (fun hh => hne hh.symm)]
      exact hrel s self.id

theorem release_unconditional_witness :
    (machine_i2s_init envOK obj0val args1 ⟨.USED, .USED⟩
      ).registry.get obj0val.id = .NOT_USED :=
  release_unconditional.2.2.1 envOK obj0val args1 ⟨.USED, .USED⟩ (by decide)

end MachineI2S
